import Mathlib

/-!
Verification of the geometric core of the BookCovers repository.

The development shallowly embeds the two source files:
* `stickworks.py` — the `Vector` and `Edge` classes (coordinates, arithmetic,
  Euclidean length, and the dynamic endpoint type check of `Edge.__init__`);
* `bookdemo.py` — the fixed book geometry (spine `S0 S1`, cover axis `C0 C1`,
  the four rhombus edges), the `Page` class (`_getVector`, `delta_angle`),
  and the functions `complementary` and `inadvertent`.

Floating-point numbers are embedded as real numbers, `math.sqrt`'s domain
error (`ValueError` on a negative radicand, called
`UnreachableConfigurationError` by the specification) is embedded as an
`Except` error, and the `isinstance` check of `Edge.__init__` is embedded via
a sum type of dynamically-typed values.  The volume computation lives in
`tetravolumes.py`, which is imported by `bookdemo.py` but is not part of the
sources; it is modelled from the specification (Cayley-Menger determinant).
-/

namespace BookCovers

/-- A 3-D vector pegged to the origin (`stickworks.py`, class `Vector`):
real coordinates `(x, y, z)`. -/
structure Vector where
  x : ℝ
  y : ℝ
  z : ℝ

/-- `Vector.__add__`: componentwise addition. -/
noncomputable instance : Add Vector :=
  ⟨fun a b => ⟨a.x + b.x, a.y + b.y, a.z + b.z⟩⟩

/-- `Vector.__sub__`: componentwise subtraction. -/
noncomputable instance : Sub Vector :=
  ⟨fun a b => ⟨a.x - b.x, a.y - b.y, a.z - b.z⟩⟩

/-- `Vector.__neg__`: componentwise negation. -/
noncomputable instance : Neg Vector :=
  ⟨fun a => ⟨-a.x, -a.y, -a.z⟩⟩

@[simp] lemma Vector.add_x (a b : Vector) : (a + b).x = a.x + b.x := rfl

@[simp] lemma Vector.add_y (a b : Vector) : (a + b).y = a.y + b.y := rfl

@[simp] lemma Vector.add_z (a b : Vector) : (a + b).z = a.z + b.z := rfl

@[simp] lemma Vector.sub_x (a b : Vector) : (a - b).x = a.x - b.x := rfl

@[simp] lemma Vector.sub_y (a b : Vector) : (a - b).y = a.y - b.y := rfl

@[simp] lemma Vector.sub_z (a b : Vector) : (a - b).z = a.z - b.z := rfl

@[simp] lemma Vector.neg_x (a : Vector) : (-a).x = -a.x := rfl

@[simp] lemma Vector.neg_y (a : Vector) : (-a).y = -a.y := rfl

@[simp] lemma Vector.neg_z (a : Vector) : (-a).z = -a.z := rfl

@[simp] lemma Vector.neg_mk (a b c : ℝ) :
    -(Vector.mk a b c) = ⟨-a, -b, -c⟩ := rfl

@[simp] lemma Vector.add_mk (a b c a2 b2 c2 : ℝ) :
    Vector.mk a b c + Vector.mk a2 b2 c2 = ⟨a + a2, b + b2, c + c2⟩ := rfl

/-- `Vector.dot`: the dot product. -/
noncomputable def Vector.dot (a b : Vector) : ℝ :=
  a.x * b.x + a.y * b.y + a.z * b.z

/-- `Vector._length`: `pow(x**2 + y**2 + z**2, 0.5)`, the Euclidean norm. -/
noncomputable def Vector.length (v : Vector) : ℝ :=
  Real.sqrt (v.x ^ 2 + v.y ^ 2 + v.z ^ 2)

/-- An `Edge` (`stickworks.py`): a line segment given by two `Vector`
endpoints. -/
structure Edge where
  v0 : Vector
  v1 : Vector

/-- `Edge._length`: `(v1 - v0).length`. -/
noncomputable def Edge.length (e : Edge) : ℝ := (e.v1 - e.v0).length

/-- A dynamically-typed Python value as passed to `Edge(...)`: either an
actual `Vector` instance or some non-`Vector` value. -/
inductive PyVal where
  | vec (v : Vector)
  | nonVec

/-- Whether a dynamically-typed value is a `Vector` instance
(`isinstance(v, Vector)`). -/
def PyVal.isVec : PyVal → Bool
  | .vec _ => true
  | .nonVec => false

/-- The recoverable error kinds of the geometric core: the `TypeError` of
`Edge.__init__` (called `InvalidEndpointError` by the specification) and the
`ValueError` of `math.sqrt` on a negative radicand (called
`UnreachableConfigurationError` by the specification). -/
inductive PyError where
  | invalidEndpoint
  | unreachableConfiguration
deriving DecidableEq

/-- `Edge.__init__` with its dynamic type check: raises unless both
arguments are `Vector` instances, otherwise stores the two endpoints. -/
def Edge.init : PyVal → PyVal → Except PyError Edge
  | .vec a, .vec b => .ok ⟨a, b⟩
  | _, _ => .error .invalidEndpoint

/-- `D = 2`, the diameter of a unit-radius sphere (`bookdemo.py`). -/
noncomputable def D : ℝ := 2

/-- `S0 = Vector((0, math.sqrt(2)/2, 0))`, one spine endpoint. -/
noncomputable def S0 : Vector := ⟨0, Real.sqrt 2 / 2, 0⟩

/-- `S1 = -S0`, the other spine endpoint. -/
noncomputable def S1 : Vector := -S0

/-- `spine = Edge(S0, S1)`. -/
noncomputable def spine : Edge := ⟨S0, S1⟩

/-- `C0 = Vector((1, 0, 0))`, one cover-axis endpoint. -/
noncomputable def C0 : Vector := ⟨1, 0, 0⟩

/-- `C1 = -C0`, the other cover-axis endpoint. -/
noncomputable def C1 : Vector := -C0

/-- `axis = Edge(C0, C1)`, the fixed cover axis. -/
noncomputable def axis : Edge := ⟨C0, C1⟩

/-- `S0C0 = Edge(S0, C0)`, a rhombus edge. -/
noncomputable def S0C0 : Edge := ⟨S0, C0⟩

/-- `S1C0 = Edge(S1, C0)`, a rhombus edge. -/
noncomputable def S1C0 : Edge := ⟨S1, C0⟩

/-- `S0C1 = Edge(S0, C1)`, a rhombus edge. -/
noncomputable def S0C1 : Edge := ⟨S0, C1⟩

/-- `S1C1 = Edge(S1, C1)`, a rhombus edge. -/
noncomputable def S1C1 : Edge := ⟨S1, C1⟩

/-- `rhomb_length = S0C1.length`, the common length of the four rhombus
edges. -/
noncomputable def rhomb_length : ℝ := S0C1.length

/-- `math.radians`: degrees to radians. -/
noncomputable def radians (d : ℝ) : ℝ := d * Real.pi / 180

/-- `Page._getVector` (`bookdemo.py`): the page tip at a given dihedral
angle (degrees) and facing; the `z` and `x` coordinates are mirrored when
the page does not point up. -/
noncomputable def getVector (angle : ℝ) (up : Bool) : Vector :=
  let z0 := Real.sin (radians angle) * axis.length / 2
  let x0 := Real.cos (radians angle) * axis.length / 2
  let z := if up then z0 else -z0
  let x := if up then x0 else -x0
  ⟨x, 0, z⟩

/-- The state of a `Page` object: its dihedral angle (degrees), its facing
flag, and its stored tip vector. -/
structure Page where
  angle : ℝ
  up : Bool
  tip : Vector

/-- `Page.__init__`: stores angle and facing and computes the tip. -/
noncomputable def Page.init (angle : ℝ) (up : Bool) : Page :=
  ⟨angle, up, getVector angle up⟩

/-- `Page.delta_angle`: increments the angle in place and recomputes the
tip; the facing flag is untouched. -/
noncomputable def Page.delta_angle (p : Page) (degrees : ℝ) : Page :=
  ⟨p.angle + degrees, p.up, getVector (p.angle + degrees) p.up⟩

/-- A `Tetrahedron` as constructed by `bookdemo.py`: six edge lengths
`a`..`f` (three edges from the apex, then the three opposite-face edges)
and the reference diameter `pv`. -/
structure Tetrahedron where
  a : ℝ
  b : ℝ
  c : ℝ
  d : ℝ
  e : ℝ
  f : ℝ
  pv : ℝ

/-- Modelled from the spec: `tetravolumes.py`, which defines the
`Tetrahedron` volume computation, is imported by `bookdemo.py` but is not
among the sources.  Following the specification, the volume comes from the
determinant of the 5x5 Cayley-Menger matrix built from the six squared edge
lengths.  This is that matrix's determinant, on squared lengths `p`..`u`,
with vertex order (apex, then the three face vertices) matching the order in
which `bookdemo.py` passes the six lengths: `p, q, r` are the squared
apex-to-face-vertex lengths and `s, t, u` the squared face edge lengths
(`s` between face vertices 1 and 2, `u` between 1 and 3, `t` between
2 and 3). -/
noncomputable def cmDetP (p q r s t u : ℝ) : ℝ :=
  Matrix.det !![(0 : ℝ), 1, 1, 1, 1;
     1, 0, p, q, r;
     1, p, 0, s, u;
     1, q, s, 0, t;
     1, r, u, t, 0]

/-- Modelled from the spec: the Cayley-Menger determinant of six edge
lengths `a`..`f` in the convention of `complementary` (`a`, `b`, `c` from
the apex; `d`, `e`, `f` the face edges, `d` joining the feet of `a` and
`b`, `e` joining the feet of `b` and `c`, `f` joining the feet of `a` and
`c`). -/
noncomputable def cmDet (a b c d e f : ℝ) : ℝ :=
  cmDetP (a ^ 2) (b ^ 2) (c ^ 2) (d ^ 2) (e ^ 2) (f ^ 2)

/-- Modelled from the spec: conventional (cubic-unit, `xyz`) volume of a
tetrahedron from its six edge lengths: the square root of the non-negative
part of the Cayley-Menger determinant divided by 288. -/
noncomputable def Tetrahedron.xyz_volume (t : Tetrahedron) : ℝ :=
  Real.sqrt (cmDet t.a t.b t.c t.d t.e t.f / 288)

/-- Modelled from the spec: natural (tetravolume, `ivm`) unit volume: the
conventional volume rescaled by the constant factor `sqrt (9/8)`. -/
noncomputable def Tetrahedron.ivm_volume (t : Tetrahedron) : ℝ :=
  Real.sqrt (9 / 8) * t.xyz_volume

/-- `complementary(page)` (`bookdemo.py`): the two tetrahedra spanned by the
page tip and each book cover.  The first uses cover `C0` (edges tip-`S0`,
tip-`C0`, tip-`S1`, `S0C0`, `S1C0`, spine), the second uses cover `C1`
(edges tip-`S0`, tip-`C1`, tip-`S1`, `S0C1`, `S1C1`, spine); both carry
`pv = D`. -/
noncomputable def complementary (page : Page) : Tetrahedron × Tetrahedron :=
  (⟨(Edge.mk page.tip S0).length, (Edge.mk page.tip C0).length,
    (Edge.mk page.tip S1).length, S0C0.length, S1C0.length, spine.length, D⟩,
   ⟨(Edge.mk page.tip S0).length, (Edge.mk page.tip C1).length,
    (Edge.mk page.tip S1).length, S0C1.length, S1C1.length, spine.length, D⟩)

/-- `inadvertent(page)` (`bookdemo.py`): rebuilds four vertices from the
distances tip-`C1` (`P_len`), tip-`C0` (`Q_len`) and the fixed rhombus edge
length.  Each call to `math.sqrt` on a negative radicand raises (the
specification's `UnreachableConfigurationError`), embedded here as the
error branches. -/
noncomputable def inadvertent (page : Page) :
    Except PyError (Vector × Vector × Vector × Vector) :=
  let P_len := (Edge.mk page.tip C1).length
  let Q_len := (Edge.mk page.tip C0).length
  let QmQ0_len := Q_len / 2
  let PmP1_len := P_len / 2
  if rhomb_length ^ 2 - PmP1_len ^ 2 < 0 then .error .unreachableConfiguration
  else
    let PmQ0_len := Real.sqrt (rhomb_length ^ 2 - PmP1_len ^ 2)
    if PmQ0_len ^ 2 - QmQ0_len ^ 2 < 0 then .error .unreachableConfiguration
    else
      let x := Real.sqrt (PmQ0_len ^ 2 - QmQ0_len ^ 2)
      let Pm : Vector := ⟨-x / 2, 0, 0⟩
      let Qm : Vector := ⟨x / 2, 0, 0⟩
      let P0 := Pm + ⟨0, -P_len / 2, 0⟩
      let P1 := Pm + ⟨0, P_len / 2, 0⟩
      let Q0 := Qm + ⟨0, 0, Q_len / 2⟩
      let Q1 := Qm + ⟨0, 0, -Q_len / 2⟩
      .ok (P0, P1, Q0, Q1)

/-- The first radicand inside `inadvertent`:
`rhomb_length**2 - PmP1_len**2`. -/
noncomputable def rad1 (page : Page) : ℝ :=
  rhomb_length ^ 2 - ((Edge.mk page.tip C1).length / 2) ^ 2

/-- The second radicand inside `inadvertent`:
`PmQ0_len**2 - QmQ0_len**2`. -/
noncomputable def rad2 (page : Page) : ℝ :=
  Real.sqrt (rad1 page) ^ 2 - ((Edge.mk page.tip C0).length / 2) ^ 2

lemma sqrt_two_sq : Real.sqrt 2 ^ 2 = 2 := Real.sq_sqrt (by norm_num)

lemma Vector.length_nonneg (v : Vector) : 0 ≤ v.length := Real.sqrt_nonneg _

lemma Vector.length_sq (v : Vector) :
    v.length ^ 2 = v.x ^ 2 + v.y ^ 2 + v.z ^ 2 :=
  Real.sq_sqrt (by positivity)

lemma Edge.length_eq (e : Edge) :
    e.length = Real.sqrt ((e.v1.x - e.v0.x) ^ 2 + (e.v1.y - e.v0.y) ^ 2 +
      (e.v1.z - e.v0.z) ^ 2) := rfl

lemma Edge.len_nonneg (e : Edge) : 0 ≤ e.length := Real.sqrt_nonneg _

lemma Edge.len_sq (e : Edge) :
    e.length ^ 2 = (e.v1.x - e.v0.x) ^ 2 + (e.v1.y - e.v0.y) ^ 2 +
      (e.v1.z - e.v0.z) ^ 2 := by
  rw [Edge.length_eq]
  exact Real.sq_sqrt (by positivity)

lemma axis_length : axis.length = 2 := by
  rw [Edge.length_eq]
  norm_num [axis, C0, C1]
  rw [show (4 : ℝ) = 2 ^ 2 by norm_num]
  exact Real.sqrt_sq (by norm_num)

lemma spine_length_sq : spine.length ^ 2 = 2 := by
  rw [Edge.len_sq]
  have h := sqrt_two_sq
  norm_num [spine, S0, S1]
  nlinarith [h]

lemma rhomb_length_sq : rhomb_length ^ 2 = 3 / 2 := by
  rw [rhomb_length, Edge.len_sq]
  have h := sqrt_two_sq
  norm_num [S0C1, S0, C0, C1]
  nlinarith [h]

lemma rhomb_length_nonneg : 0 ≤ rhomb_length := Edge.len_nonneg _

lemma S0C0_length_sq : S0C0.length ^ 2 = 3 / 2 := by
  rw [Edge.len_sq]
  have h := sqrt_two_sq
  norm_num [S0C0, S0, C0]
  nlinarith [h]

lemma S1C0_length_sq : S1C0.length ^ 2 = 3 / 2 := by
  rw [Edge.len_sq]
  have h := sqrt_two_sq
  norm_num [S1C0, S0, S1, C0]
  nlinarith [h]

lemma S0C1_length_sq : S0C1.length ^ 2 = 3 / 2 := rhomb_length_sq

lemma S1C1_length_sq : S1C1.length ^ 2 = 3 / 2 := by
  rw [Edge.len_sq]
  have h := sqrt_two_sq
  norm_num [S1C1, S0, S1, C0, C1]
  nlinarith [h]

/-- The signed cosine of the page angle: the sign records the facing. -/
noncomputable def fcos (up : Bool) (angle : ℝ) : ℝ :=
  if up then Real.cos (radians angle) else -Real.cos (radians angle)

lemma fcos_le_one (up : Bool) (angle : ℝ) : fcos up angle ≤ 1 := by
  cases up <;> simp [fcos] <;>
    [linarith [Real.neg_one_le_cos (radians angle)];
     exact Real.cos_le_one _]

lemma neg_one_le_fcos (up : Bool) (angle : ℝ) : -1 ≤ fcos up angle := by
  cases up <;> simp [fcos] <;>
    [exact Real.cos_le_one _; exact Real.neg_one_le_cos _]

lemma getVector_eq (angle : ℝ) (up : Bool) :
    getVector angle up =
      ⟨fcos up angle, 0,
       if up then Real.sin (radians angle) else -Real.sin (radians angle)⟩ := by
  cases up <;> simp [getVector, fcos, axis_length]

lemma tip_S0_sq (angle : ℝ) (up : Bool) :
    (Edge.mk (getVector angle up) S0).length ^ 2 = 3 / 2 := by
  rw [Edge.len_sq, getVector_eq]
  have hs := Real.sin_sq_add_cos_sq (radians angle)
  have h2 := sqrt_two_sq
  cases up <;> norm_num [S0, fcos] <;> nlinarith [hs, h2]

lemma tip_S1_sq (angle : ℝ) (up : Bool) :
    (Edge.mk (getVector angle up) S1).length ^ 2 = 3 / 2 := by
  rw [Edge.len_sq, getVector_eq]
  have hs := Real.sin_sq_add_cos_sq (radians angle)
  have h2 := sqrt_two_sq
  cases up <;> norm_num [S0, S1, fcos] <;> nlinarith [hs, h2]

lemma tip_C0_sq (angle : ℝ) (up : Bool) :
    (Edge.mk (getVector angle up) C0).length ^ 2 = 2 - 2 * fcos up angle := by
  rw [Edge.len_sq, getVector_eq]
  have hs := Real.sin_sq_add_cos_sq (radians angle)
  cases up <;> norm_num [C0, fcos] <;> nlinarith [hs]

lemma tip_C1_sq (angle : ℝ) (up : Bool) :
    (Edge.mk (getVector angle up) C1).length ^ 2 = 2 + 2 * fcos up angle := by
  rw [Edge.len_sq, getVector_eq]
  have hs := Real.sin_sq_add_cos_sq (radians angle)
  cases up <;> norm_num [C0, C1, fcos] <;> nlinarith [hs]

lemma finCS24 : (Fin.castSucc (2 : Fin 4)) = (2 : Fin 5) := rfl

lemma finCS23 : (Fin.castSucc (2 : Fin 3)) = (2 : Fin 4) := rfl

lemma finS23 : (Fin.succ (2 : Fin 3)) = (3 : Fin 4) := rfl

lemma finCS34 : (Fin.castSucc (3 : Fin 4)) = (3 : Fin 5) := rfl

lemma finS24 : (Fin.succ (2 : Fin 4)) = (3 : Fin 5) := rfl

lemma finS34 : (Fin.succ (3 : Fin 4)) = (4 : Fin 5) := rfl

lemma finV34 : ((3 : Fin 4) : ℕ) = 3 := rfl

lemma finV35 : ((3 : Fin 5) : ℕ) = 3 := rfl

lemma finV45 : ((4 : Fin 5) : ℕ) = 4 := rfl

lemma finV24 : ((2 : Fin 4) : ℕ) = 2 := rfl

lemma finV25 : ((2 : Fin 5) : ℕ) = 2 := rfl

set_option maxHeartbeats 4000000 in
lemma cmDetP_book (k : ℝ) :
    cmDetP (3 / 2) (2 - 2 * k) (3 / 2) (3 / 2) (3 / 2) 2 = 16 * (1 - k ^ 2) := by
  norm_num [cmDetP, Matrix.det_succ_row_zero, Fin.sum_univ_succ, Fin.succAbove,
    Fin.lt_def, Matrix.vecHead, Matrix.vecTail, finCS24, finCS23, finS23,
    finCS34, finS24, finS34, finV34, finV35, finV45, finV24, finV25]
  ring

lemma rad1_eval (angle : ℝ) (up : Bool) :
    rad1 (Page.init angle up) = 1 - fcos up angle / 2 := by
  have h := tip_C1_sq angle up
  rw [rad1]
  show rhomb_length ^ 2 - ((Edge.mk (getVector angle up) C1).length / 2) ^ 2 =
    1 - fcos up angle / 2
  rw [div_pow, h, rhomb_length_sq]
  ring

lemma rad1_pos (angle : ℝ) (up : Bool) : 0 < rad1 (Page.init angle up) := by
  rw [rad1_eval]
  have h := fcos_le_one up angle
  linarith

lemma rad2_eval (angle : ℝ) (up : Bool) :
    rad2 (Page.init angle up) = 1 / 2 := by
  have h0 := tip_C0_sq angle up
  rw [rad2, Real.sq_sqrt (le_of_lt (rad1_pos angle up)), rad1_eval]
  show 1 - fcos up angle / 2 -
    ((Edge.mk (getVector angle up) C0).length / 2) ^ 2 = 1 / 2
  rw [div_pow, h0]
  ring

/-- The four vertices returned by `inadvertent` in the success case,
written out with the two radicands named. -/
noncomputable def inadvertentPoints (p : Page) :
    Vector × Vector × Vector × Vector :=
  (⟨-Real.sqrt (rad2 p) / 2 + 0, 0 + -(Edge.mk p.tip C1).length / 2, 0 + 0⟩,
   ⟨-Real.sqrt (rad2 p) / 2 + 0, 0 + (Edge.mk p.tip C1).length / 2, 0 + 0⟩,
   ⟨Real.sqrt (rad2 p) / 2 + 0, 0 + 0, 0 + (Edge.mk p.tip C0).length / 2⟩,
   ⟨Real.sqrt (rad2 p) / 2 + 0, 0 + 0, 0 + -(Edge.mk p.tip C0).length / 2⟩)

lemma inadvertent_def (p : Page) :
    inadvertent p =
      if rad1 p < 0 then Except.error PyError.unreachableConfiguration
      else if rad2 p < 0 then Except.error PyError.unreachableConfiguration
      else Except.ok (inadvertentPoints p) := rfl

lemma inadvertent_error_iff (p : Page) :
    (∃ er, inadvertent p = Except.error er) ↔
      (rad1 p < 0 ∨ (0 ≤ rad1 p ∧ rad2 p < 0)) := by
  rw [inadvertent_def]
  split_ifs with h1 h2
  · exact iff_of_true ⟨_, rfl⟩ (Or.inl h1)
  · exact iff_of_true ⟨_, rfl⟩ (Or.inr ⟨le_of_not_lt h1, h2⟩)
  · constructor
    · rintro ⟨er, her⟩
      exact her.elim
    · rintro (h | ⟨hge, h⟩) <;> [exact absurd h h1; exact absurd h h2]

lemma inadvertent_init_ok (angle : ℝ) (up : Bool) :
    ∃ r, inadvertent (Page.init angle up) = Except.ok r := by
  have h1 : ¬ rad1 (Page.init angle up) < 0 :=
    not_lt.mpr (le_of_lt (rad1_pos angle up))
  have h2 : ¬ rad2 (Page.init angle up) < 0 := by
    rw [rad2_eval]; norm_num
  rw [inadvertent_def, if_neg h1, if_neg h2]
  exact ⟨_, rfl⟩

lemma radians_zero : radians 0 = 0 := by rw [radians]; ring

lemma radians_pi : radians 180 = Real.pi := by rw [radians]; ring

lemma getVector_zero : getVector 0 true = C0 := by
  rw [getVector_eq]
  simp [fcos, radians_zero, C0]

lemma getVector_pi : getVector 180 true = C1 := by
  rw [getVector_eq]
  norm_num [fcos, radians_pi, C1, C0]

lemma tip_init (angle : ℝ) (up : Bool) :
    (Page.init angle up).tip = getVector angle up := rfl

lemma len_C0C1 : (Edge.mk C0 C1).length = 2 := by
  rw [Edge.length_eq]
  norm_num [C0, C1]
  rw [show (4 : ℝ) = 2 ^ 2 by norm_num]
  exact Real.sqrt_sq (by norm_num)

lemma len_C0C0 : (Edge.mk C0 C0).length = 0 := by
  rw [Edge.length_eq]
  norm_num

lemma inadvertent_at_zero :
    inadvertent (Page.init 0 true) =
      Except.ok
        (⟨-Real.sqrt (1 / 2) / 2, -1, 0⟩, ⟨-Real.sqrt (1 / 2) / 2, 1, 0⟩,
         ⟨Real.sqrt (1 / 2) / 2, 0, 0⟩, ⟨Real.sqrt (1 / 2) / 2, 0, 0⟩) := by
  have h1 : ¬ rad1 (Page.init 0 true) < 0 :=
    not_lt.mpr (le_of_lt (rad1_pos 0 true))
  have h2 : ¬ rad2 (Page.init 0 true) < 0 := by rw [rad2_eval]; norm_num
  have hC1 : (Edge.mk (Page.init 0 true).tip C1).length = 2 := by
    rw [tip_init, getVector_zero]; exact len_C0C1
  have hC0 : (Edge.mk (Page.init 0 true).tip C0).length = 0 := by
    rw [tip_init, getVector_zero]; exact len_C0C0
  rw [inadvertent_def, if_neg h1, if_neg h2, inadvertentPoints, rad2_eval,
    hC1, hC0]
  norm_num

/-- C1: for every page angle (all reals, in degrees, hence all of
`[0, 360)`) and both facings, the two tetrahedron edge-length sets returned
by `complementary` — one from tip-`S0`, tip-`C0`, tip-`S1`, `S0C0`, `S1C0`,
spine and one from tip-`S0`, tip-`C1`, tip-`S1`, `S0C1`, `S1C1`, spine —
have exactly equal Cayley-Menger volume (so in particular equal within any
relative tolerance), in the natural and in the conventional unit. -/
theorem complementary_volumes_equal (angle : ℝ) (up : Bool) :
    ((complementary (Page.init angle up)).1.ivm_volume =
      (complementary (Page.init angle up)).2.ivm_volume) ∧
    ((complementary (Page.init angle up)).1.xyz_volume =
      (complementary (Page.init angle up)).2.xyz_volume) := by
  have htip : (Page.init angle up).tip = getVector angle up := rfl
  have hdet :
      cmDet (Edge.mk (getVector angle up) S0).length
        (Edge.mk (getVector angle up) C0).length
        (Edge.mk (getVector angle up) S1).length
        S0C0.length S1C0.length spine.length =
      cmDet (Edge.mk (getVector angle up) S0).length
        (Edge.mk (getVector angle up) C1).length
        (Edge.mk (getVector angle up) S1).length
        S0C1.length S1C1.length spine.length := by
    rw [cmDet, cmDet, tip_S0_sq, tip_S1_sq, tip_C0_sq, tip_C1_sq,
      S0C0_length_sq, S1C0_length_sq, S0C1_length_sq, S1C1_length_sq,
      spine_length_sq]
    rw [cmDetP_book (fcos up angle),
      show (2 : ℝ) + 2 * fcos up angle = 2 - 2 * -(fcos up angle) by ring,
      cmDetP_book (-(fcos up angle))]
    ring
  constructor <;>
    simp only [complementary, Tetrahedron.ivm_volume, Tetrahedron.xyz_volume,
      htip] <;>
    rw [hdet]

/-- C2: the page tip computed by `Page._getVector` is
`(cos(radians th) * axis.length/2, 0, sin(radians th) * axis.length/2)`,
with the `x` and `z` components negated (and `y` still `0`) for a page
facing down; the tip always lies in the XZ plane at distance
`axis.length/2` from the origin. -/
theorem getVector_formula (angle : ℝ) (up : Bool) :
    (Page.init angle up).tip = getVector angle up ∧
    getVector angle up =
      (if up then
        Vector.mk (Real.cos (radians angle) * axis.length / 2) 0
          (Real.sin (radians angle) * axis.length / 2)
      else
        Vector.mk (-(Real.cos (radians angle) * axis.length / 2)) 0
          (-(Real.sin (radians angle) * axis.length / 2))) ∧
    (getVector angle up).y = 0 ∧
    (getVector angle up).length = axis.length / 2 := by
  refine ⟨rfl, by cases up <;> rfl, by cases up <;> rfl, ?_⟩
  have hh : (getVector angle up).x ^ 2 + (getVector angle up).y ^ 2 +
      (getVector angle up).z ^ 2 = 1 := by
    rw [getVector_eq]
    cases up <;> norm_num [fcos]
  rw [Vector.length, hh, Real.sqrt_one, axis_length]
  norm_num

/-- C3 (counterexample): contrary to the claim, no failing angle value
exists for this program's fixed book geometry — there is no angle and
facing at which `inadvertent` reaches a negative radicand. -/
theorem inadvertent_never_fails :
    ¬ ∃ (angle : ℝ) (up : Bool) (er : PyError),
        inadvertent (Page.init angle up) = Except.error er := by
  rintro ⟨angle, up, er, h⟩
  obtain ⟨r, hr⟩ := inadvertent_init_ok angle up
  rw [hr] at h
  exact Except.noConfusion h

/-- C3 (amended): `inadvertent` fails with the recoverable
`UnreachableConfigurationError` value exactly when its construction meets a
negative radicand, but for this program's fixed book geometry the radicands
are never negative: every angle value and facing succeeds. -/
theorem inadvertent_error_characterization :
    (∀ p : Page, (∃ er, inadvertent p = Except.error er) ↔
        (rad1 p < 0 ∨ (0 ≤ rad1 p ∧ rad2 p < 0))) ∧
    (∀ (angle : ℝ) (up : Bool),
        ∃ r, inadvertent (Page.init angle up) = Except.ok r) :=
  ⟨inadvertent_error_iff, inadvertent_init_ok⟩

/-- C4: whenever `inadvertent` succeeds, the four returned points satisfy:
`P0 P1` has the tip-`C1` distance, `Q0 Q1` has the tip-`C0` distance, the
two segments are perpendicular, and the four remaining pairwise distances
all equal the fixed rhomb edge length. -/
theorem inadvertent_points_distances (p : Page) (P0 P1 Q0 Q1 : Vector)
    (h : inadvertent p = Except.ok (P0, P1, Q0, Q1)) :
    (Edge.mk P0 P1).length = (Edge.mk p.tip C1).length ∧
    (Edge.mk Q0 Q1).length = (Edge.mk p.tip C0).length ∧
    (P1 - P0).dot (Q1 - Q0) = 0 ∧
    (Edge.mk P0 Q0).length = rhomb_length ∧
    (Edge.mk P0 Q1).length = rhomb_length ∧
    (Edge.mk P1 Q0).length = rhomb_length ∧
    (Edge.mk P1 Q1).length = rhomb_length := by
  rw [inadvertent_def] at h
  by_cases h1 : rad1 p < 0
  · rw [if_pos h1] at h; exact Except.noConfusion h
  rw [if_neg h1] at h
  by_cases h2 : rad2 p < 0
  · rw [if_pos h2] at h; exact Except.noConfusion h
  rw [if_neg h2] at h
  have h' := Except.ok.inj h
  rw [inadvertentPoints] at h'
  simp only [Prod.mk.injEq] at h'
  obtain ⟨e0, e1, e2, e3⟩ := h'
  subst e0 e1 e2 e3
  have hPL : 0 ≤ (Edge.mk p.tip C1).length := Edge.len_nonneg _
  have hQL : 0 ≤ (Edge.mk p.tip C0).length := Edge.len_nonneg _
  have hx2 : Real.sqrt (rad2 p) ^ 2 = rad2 p := Real.sq_sqrt (not_lt.mp h2)
  have hr2 : rad2 p = rad1 p - ((Edge.mk p.tip C0).length / 2) ^ 2 := by
    rw [rad2, Real.sq_sqrt (not_lt.mp h1)]
  have hr1 : rad1 p =
      rhomb_length ^ 2 - ((Edge.mk p.tip C1).length / 2) ^ 2 := rfl
  have key : ∀ A L : ℝ, 0 ≤ L → A = L ^ 2 → Real.sqrt A = L := by
    intro A L hL hAL
    rw [hAL]
    exact Real.sqrt_sq hL
  refine ⟨?_, ?_, ?_, ?_, ?_, ?_, ?_⟩
  · rw [Edge.length_eq]
    norm_num
    exact key _ _ hPL (by ring)
  · rw [Edge.length_eq]
    norm_num
    exact key _ _ hQL (by ring)
  · simp [Vector.dot]
  · rw [Edge.length_eq]
    norm_num
    exact key _ _ rhomb_length_nonneg
      (by linear_combination hx2 + hr2 + hr1)
  · rw [Edge.length_eq]
    norm_num
    exact key _ _ rhomb_length_nonneg
      (by linear_combination hx2 + hr2 + hr1)
  · rw [Edge.length_eq]
    norm_num
    exact key _ _ rhomb_length_nonneg
      (by linear_combination hx2 + hr2 + hr1)
  · rw [Edge.length_eq]
    norm_num
    exact key _ _ rhomb_length_nonneg
      (by linear_combination hx2 + hr2 + hr1)

/-- C4 (witness): the conclusion of `inadvertent_points_distances` at the
concrete page of angle `0` facing up, whose `inadvertent` output is the
explicit quadruple of `inadvertent_at_zero`. -/
theorem inadvertent_points_distances_witness :
    (Edge.mk (⟨-Real.sqrt (1 / 2) / 2, -1, 0⟩ : Vector)
        ⟨-Real.sqrt (1 / 2) / 2, 1, 0⟩).length =
      (Edge.mk (Page.init 0 true).tip C1).length ∧
    (Edge.mk (⟨Real.sqrt (1 / 2) / 2, 0, 0⟩ : Vector)
        ⟨Real.sqrt (1 / 2) / 2, 0, 0⟩).length =
      (Edge.mk (Page.init 0 true).tip C0).length ∧
    ((⟨-Real.sqrt (1 / 2) / 2, 1, 0⟩ : Vector) -
        ⟨-Real.sqrt (1 / 2) / 2, -1, 0⟩).dot
      ((⟨Real.sqrt (1 / 2) / 2, 0, 0⟩ : Vector) -
        ⟨Real.sqrt (1 / 2) / 2, 0, 0⟩) = 0 ∧
    (Edge.mk (⟨-Real.sqrt (1 / 2) / 2, -1, 0⟩ : Vector)
        ⟨Real.sqrt (1 / 2) / 2, 0, 0⟩).length = rhomb_length ∧
    (Edge.mk (⟨-Real.sqrt (1 / 2) / 2, -1, 0⟩ : Vector)
        ⟨Real.sqrt (1 / 2) / 2, 0, 0⟩).length = rhomb_length ∧
    (Edge.mk (⟨-Real.sqrt (1 / 2) / 2, 1, 0⟩ : Vector)
        ⟨Real.sqrt (1 / 2) / 2, 0, 0⟩).length = rhomb_length ∧
    (Edge.mk (⟨-Real.sqrt (1 / 2) / 2, 1, 0⟩ : Vector)
        ⟨Real.sqrt (1 / 2) / 2, 0, 0⟩).length = rhomb_length :=
  inadvertent_points_distances (Page.init 0 true) _ _ _ _ inadvertent_at_zero

/-- C3 (amended, witness): a concrete success of `inadvertent` obtained
from the second half of `inadvertent_error_characterization`. -/
theorem inadvertent_error_characterization_witness :
    ∃ r, inadvertent (Page.init 90 false) = Except.ok r :=
  inadvertent_error_characterization.2 90 false

/-- C5: with facing up, the page tip at angle `0` equals the cover-axis
endpoint `C0` exactly (componentwise), and the page tip at angle `180`
equals `C1` exactly. -/
theorem page_tip_at_axis_endpoints :
    (Page.init 0 true).tip = C0 ∧ (Page.init 180 true).tip = C1 :=
  ⟨getVector_zero, getVector_pi⟩

/-- C6: `delta_angle` is additive: from any starting page state, applying
`delta_angle a` then `delta_angle b` yields the same tip (indeed the same
whole state) as a single `delta_angle (a + b)`. -/
theorem delta_angle_additive (p : Page) (a b : ℝ) :
    ((p.delta_angle a).delta_angle b).tip = (p.delta_angle (a + b)).tip ∧
    (p.delta_angle a).delta_angle b = p.delta_angle (a + b) := by
  have h : (p.delta_angle a).delta_angle b = p.delta_angle (a + b) := by
    rw [Page.delta_angle, Page.delta_angle, Page.delta_angle]
    rw [add_assoc]
  exact ⟨by rw [h], h⟩

/-- C7: for the fixed book geometry (`axis.length = 2`,
`rhomb_length ^ 2 = 3/2`), at every angle and facing the squared tip
distances to the two axis endpoints sum to `axis.length ^ 2 = 4`; hence the
final radicand inside `inadvertent` equals `rhomb_length ^ 2 - 1 = 1/2`,
both radicands are positive, and `inadvertent` succeeds at every angle. -/
theorem inadvertent_radicands_positive (angle : ℝ) (up : Bool) :
    axis.length = 2 ∧
    rhomb_length ^ 2 = 3 / 2 ∧
    (Edge.mk (Page.init angle up).tip C0).length ^ 2 +
      (Edge.mk (Page.init angle up).tip C1).length ^ 2 = axis.length ^ 2 ∧
    axis.length ^ 2 = 4 ∧
    0 < rad1 (Page.init angle up) ∧
    rad2 (Page.init angle up) = rhomb_length ^ 2 - 1 ∧
    rhomb_length ^ 2 - 1 = 1 / 2 ∧
    ∃ r, inadvertent (Page.init angle up) = Except.ok r := by
  refine ⟨axis_length, rhomb_length_sq, ?_, by rw [axis_length]; norm_num,
    rad1_pos angle up, ?_, by rw [rhomb_length_sq]; norm_num,
    inadvertent_init_ok angle up⟩
  · rw [tip_init, tip_C0_sq, tip_C1_sq, axis_length]
    ring
  · rw [rad2_eval, rhomb_length_sq]
    norm_num

/-- The invariant that a page's stored tip is the pure function
`getVector` of its current angle and facing. -/
def Page.wellFormed (p : Page) : Prop := p.tip = getVector p.angle p.up

/-- C8: the stored tip is always the pure function of the current
(angle, facing) pair: it holds right after construction and is preserved by
`delta_angle`, which also never changes the facing flag. -/
theorem tip_pure_function_of_state :
    (∀ (angle : ℝ) (up : Bool), (Page.init angle up).wellFormed) ∧
    (∀ (p : Page) (d : ℝ), p.wellFormed →
      ((p.delta_angle d).wellFormed ∧ (p.delta_angle d).up = p.up)) := by
  constructor
  · intro angle up
    rfl
  · intro p d _
    exact ⟨rfl, rfl⟩

/-- C8 (witness): the invariant at the concrete page of angle `0` facing
up, and its preservation across a concrete `delta_angle 5` call. -/
theorem tip_pure_function_of_state_witness :
    (Page.init 0 true).wellFormed ∧
    ((Page.init 0 true).delta_angle 5).wellFormed ∧
    ((Page.init 0 true).delta_angle 5).up = (Page.init 0 true).up :=
  ⟨tip_pure_function_of_state.1 0 true,
   (tip_pure_function_of_state.2 (Page.init 0 true) 5
      (tip_pure_function_of_state.1 0 true)).1,
   (tip_pure_function_of_state.2 (Page.init 0 true) 5
      (tip_pure_function_of_state.1 0 true)).2⟩

/-- C9: constructing an `Edge` from dynamically-typed inputs succeeds
exactly when both inputs are `Vector` values, and fails with the
invalid-endpoint error exactly otherwise. -/
theorem edge_init_type_check (a b : PyVal) :
    ((∃ ed, Edge.init a b = Except.ok ed) ↔
      (a.isVec = true ∧ b.isVec = true)) ∧
    ((Edge.init a b = Except.error PyError.invalidEndpoint) ↔
      ¬(a.isVec = true ∧ b.isVec = true)) := by
  cases a <;> cases b <;> simp [Edge.init, PyVal.isVec]

/-- C10: a segment's length is the Euclidean distance between its
endpoints (the square root of the sum of squared coordinate differences);
it is symmetric in the two endpoints, non-negative, and exactly `0` for
coincident endpoints. -/
theorem segment_length_is_euclidean_distance (v0 v1 : Vector) :
    (Edge.mk v0 v1).length =
      Real.sqrt ((v1.x - v0.x) ^ 2 + (v1.y - v0.y) ^ 2 + (v1.z - v0.z) ^ 2) ∧
    (Edge.mk v0 v1).length = (Edge.mk v1 v0).length ∧
    0 ≤ (Edge.mk v0 v1).length ∧
    (Edge.mk v0 v0).length = 0 := by
  refine ⟨rfl, ?_, Edge.len_nonneg _, ?_⟩
  · rw [Edge.length_eq, Edge.length_eq]
    congr 1
    ring
  · rw [Edge.length_eq]
    simp

/-- C9 (witness): `Edge.init` on two concrete `Vector` values succeeds,
and on two concrete non-`Vector` values fails with the invalid-endpoint
error, both obtained from `edge_init_type_check`. -/
theorem edge_init_type_check_witness :
    (∃ ed, Edge.init (PyVal.vec ⟨0, 0, 0⟩) (PyVal.vec ⟨1, 0, 0⟩) =
      Except.ok ed) ∧
    Edge.init PyVal.nonVec PyVal.nonVec =
      Except.error PyError.invalidEndpoint :=
  ⟨(edge_init_type_check (PyVal.vec ⟨0, 0, 0⟩) (PyVal.vec ⟨1, 0, 0⟩)).1.mpr
      (by simp [PyVal.isVec]),
   (edge_init_type_check PyVal.nonVec PyVal.nonVec).2.mpr
      (by simp [PyVal.isVec])⟩

end BookCovers
